import Mathlib

/-!
# Verification of the German annotation services

Shallow embedding of the two line-protocol annotation services of this
repository, `src/server/lemmatizer-service.py` (simplemma-backed) and
`src/server/spacy-service.py` (spaCy-backed), together with proofs of the
specified normalization, error-handling and protocol properties.

The external linguistic engines (`simplemma.lemmatize`, the loaded spaCy
pipeline `nlp`) and the JSON decoder (`json.loads`) are collaborators outside
the repository; they are modelled as explicit function parameters. A Python
exception raised by an engine call is modelled as an explicit `raises`
outcome. JSON values are modelled by the inductive `Json`; numbers are
rationals (the services only ever emit the exact literals 0.95, 0.3 and 0.0
and copy engine-provided numbers, so no floating-point rounding is
involved). A Python `dict` is modelled as a field list without duplicate
keys, in insertion order.
-/

set_option autoImplicit false

namespace DeutschLernen

/-- A JSON value, as produced by `json.loads` and consumed by `json.dumps`.
An `obj` models a Python dict: fields in insertion order, keys unique. -/
inductive Json where
  | null : Json
  | bool (b : Bool) : Json
  | num (q : ℚ) : Json
  | str (s : String) : Json
  | arr (elems : List Json) : Json
  | obj (fields : List (String × Json)) : Json

/-- `dict.get(key)` on the field list of a `Json.obj`: first (= only, keys
being unique) binding of `key`, or `none`. -/
def fieldLookup : List (String × Json) → String → Option Json
  | [], _ => none
  | (k, v) :: rest, key => if k = key then some v else fieldLookup rest key

/-- Is this JSON value a string? (`str.lower()` exists exactly on strings.) -/
def Json.isStr : Json → Bool
  | Json.str _ => true
  | _ => false

/-- Python truthiness of a JSON-decoded value (`if not text:`). -/
def jsonTruthy : Json → Bool
  | Json.null => false
  | Json.bool b => b
  | Json.num q => q != 0
  | Json.str s => s != ""
  | Json.arr l => !l.isEmpty
  | Json.obj l => !l.isEmpty

/-- The Python type name of a JSON-decoded value, as it appears in
`AttributeError`/`TypeError` messages (`'int' object has no attribute ...`).
Integral numbers decode to `int`, the rest to `float`. -/
def pyTypeName : Json → String
  | Json.null => "NoneType"
  | Json.bool _ => "bool"
  | Json.num q => if q.den = 1 then "int" else "float"
  | Json.str _ => "str"
  | Json.arr _ => "list"
  | Json.obj _ => "dict"

/-- Message of the `AttributeError` raised by `value.attr` on a value whose
type lacks the attribute (CPython wording). -/
def noAttrMsg (v : Json) (attr : String) : String :=
  "'" ++ pyTypeName v ++ "' object has no attribute '" ++ attr ++ "'"

/-- Python `str()` of a JSON-decoded value, used by f-string interpolation
(`f"Unknown action: {action}"`). Numeric formatting is approximated; no
claim inspects these characters. -/
def pyStr : Json → String
  | Json.null => "None"
  | Json.bool true => "True"
  | Json.bool false => "False"
  | Json.num q => toString q
  | Json.str s => s
  | Json.arr _ => "[...]"
  | Json.obj _ => "\x7b...\x7d"

/-- The whitespace characters `str.strip()` removes (the ASCII ones; CPython
additionally strips non-ASCII Unicode spaces, which do not occur in this
protocol's line streams). -/
def isPySpace (c : Char) : Bool :=
  c = ' ' || c = '\t' || c = '\n' || c = '\r' || c = '\x0b' || c = '\x0c'

/-- `line.strip()`: remove leading and trailing whitespace. -/
def pyStrip (s : String) : String :=
  String.mk (((s.data.dropWhile isPySpace).reverse.dropWhile isPySpace).reverse)

/-- `str.lower()` on one character: the ASCII case mapping (CPython
additionally lowercases non-ASCII letters; the claims' inputs are covered by
the ASCII mapping). -/
def pyLowerChar (c : Char) : Char :=
  if 65 ≤ c.toNat && c.toNat ≤ 90 then Char.ofNat (c.toNat + 32) else c

/-- `word.lower()`. -/
def pyLower (s : String) : String := String.mk (s.data.map pyLowerChar)

/-- Python `s.split(sep, 1)` for a one-character separator, combined with
the `sep in s` membership test: `some (before, after)` splits at the first
occurrence, `none` means the separator does not occur. -/
def splitFirst (sep : Char) : List Char → Option (List Char × List Char)
  | [] => none
  | x :: xs =>
      if x = sep then some ([], xs)
      else (splitFirst sep xs).map (fun p => (x :: p.1, p.2))

/-- Python `s.split(sep)` for a one-character separator: the segments
between occurrences, in order (`"".split(sep) == [""]`; `n` separators give
`n+1` segments). -/
def splitAll (sep : Char) : List Char → List (List Char)
  | [] => [[]]
  | x :: xs =>
      if x = sep then [] :: splitAll sep xs
      else
        match splitAll sep xs with
        | [] => [[x]]
        | seg :: segs => (x :: seg) :: segs

/-- The word-level annotation record built by both services' lemmatize
paths (the Python dicts of `lemmatize` / `lemmatize_word`). Fields that a
given path does not set are `none`. -/
structure AnnotationRecord where
  word : String
  lemma_ : String
  confidence : ℚ
  method : String
  pos : Option String
  tag : Option String
  dep : Option String
  morph : Option (List (String × String))
  error : Option String
  deriving DecidableEq

/-- `json.dumps` of an `AnnotationRecord` dict into a `Json.obj`, with the
fields in the insertion order of the corresponding dict literal in the
source: error records are `{word, lemma, confidence, error, method}`, spaCy
success records are `{word, lemma, pos, tag, dep, morph, confidence,
method}`, simplemma records are `{word, lemma, confidence, method}`. -/
def recordToJson (r : AnnotationRecord) : Json :=
  match r.error with
  | some e =>
      Json.obj [("word", Json.str r.word), ("lemma", Json.str r.lemma_),
        ("confidence", Json.num r.confidence), ("error", Json.str e),
        ("method", Json.str r.method)]
  | none =>
      match r.pos, r.tag, r.dep, r.morph with
      | some p, some t, some d, some m =>
          Json.obj [("word", Json.str r.word), ("lemma", Json.str r.lemma_),
            ("pos", Json.str p), ("tag", Json.str t), ("dep", Json.str d),
            ("morph", Json.obj (m.map (fun kv => (kv.1, Json.str kv.2)))),
            ("confidence", Json.num r.confidence), ("method", Json.str r.method)]
      | _, _, _, _ =>
          Json.obj [("word", Json.str r.word), ("lemma", Json.str r.lemma_),
            ("confidence", Json.num r.confidence), ("method", Json.str r.method)]

/-! ## The simplemma-backed service (`lemmatizer-service.py`) -/

/-- Outcome of a call to the external engine `simplemma.lemmatize(word,
lang)`: either it raises (any `Exception`, carried with its message text) or
it returns its candidate lemmas, `list(lemmas)` in engine order. -/
inductive SimplemmaResult where
  | raises (msg : String) : SimplemmaResult
  | candidates (lemmas : List String) : SimplemmaResult

/-- `lemmatize(word)` of `lemmatizer-service.py`: take the first candidate
if any (confidence `0.95 if lemma != word else 0.3`, method "simplemma"),
fall back to the word itself with confidence 0.3 and method "heuristic" when
there are no candidates, and catch engine exceptions into an error record
with confidence 0.0. -/
def lemmatize (engine : String → SimplemmaResult) (word : String) :
    AnnotationRecord :=
  match engine word with
  | SimplemmaResult.raises msg =>
      ⟨word, word, 0, "error", none, none, none, none, some msg⟩
  | SimplemmaResult.candidates [] =>
      ⟨word, word, 0.3, "heuristic", none, none, none, none, none⟩
  | SimplemmaResult.candidates (lem :: _) =>
      ⟨word, lem, if lem ≠ word then 0.95 else 0.3, "simplemma",
        none, none, none, none, none⟩

/-- `request.get("word", "").lower()` on a decoded JSON value: default `""`
when the key is absent, `AttributeError` when the request is not a dict
(`.get`) or the value is not a string (`.lower`). -/
def getLoweredWord (req : Json) : Except String String :=
  match req with
  | Json.obj fields =>
      match fieldLookup fields "word" with
      | none => Except.ok (pyLower "")
      | some (Json.str s) => Except.ok (pyLower s)
      | some v => Except.error (noAttrMsg v "lower")
  | _ => Except.error (noAttrMsg req "get")

/-- Body of the `try` block of `main` in `lemmatizer-service.py` for one
stripped, non-blank line: decode, extract and lowercase the word, emit
`{"error": "Invalid JSON"}` on a decode failure, `{"error": str(e)}` on any
other exception, `{"error": "Missing word field"}` on an empty word, and the
serialized `lemmatize` record otherwise. -/
def lemmaRespond (parse : String → Except String Json)
    (engine : String → SimplemmaResult) (l : String) : Json :=
  match parse l with
  | Except.error _ => Json.obj [("error", Json.str "Invalid JSON")]
  | Except.ok req =>
      match getLoweredWord req with
      | Except.error msg => Json.obj [("error", Json.str msg)]
      | Except.ok word =>
          if word = "" then Json.obj [("error", Json.str "Missing word field")]
          else recordToJson (lemmatize engine word)

/-- One iteration of the `main` loop of `lemmatizer-service.py`: strip the
line, skip it when blank (no output), otherwise write exactly one response
line. -/
def lemmaProcessLine (parse : String → Except String Json)
    (engine : String → SimplemmaResult) (line : String) : Option Json :=
  if pyStrip line = "" then none
  else some (lemmaRespond parse engine (pyStrip line))

/-- The `main` loop of `lemmatizer-service.py` over a finite input stream:
the list of response lines written to stdout, in order. -/
def lemmaMain (parse : String → Except String Json)
    (engine : String → SimplemmaResult) : List String → List Json
  | [] => []
  | line :: rest =>
      match lemmaProcessLine parse engine line with
      | none => lemmaMain parse engine rest
      | some out => out :: lemmaMain parse engine rest

/-! ## The spaCy-backed service (`spacy-service.py`) -/

/-- Python dict assignment `d[k] = v` on a dict modelled as an assoc list in
insertion order: overwrite an existing binding in place, otherwise append. -/
def dictSet (d : List (String × String)) (k v : String) :
    List (String × String) :=
  if d.any (fun p => p.1 = k) then
    d.map (fun p => if p.1 = k then (k, v) else p)
  else d ++ [(k, v)]

/-- The morphology-dictionary construction both `lemmatize_word` and
`analyze_sentence` perform on `str(token.morph)`: when the morph is truthy
(non-empty), split on `|`, keep only segments containing `=`, split each on
the first `=` and assign into the dict; an empty morph leaves the dict
empty. -/
def morphToDict (morph : String) : List (String × String) :=
  if morph = "" then []
  else
    (splitAll '|' morph.data).foldl
      (fun acc feature =>
        match splitFirst '=' feature with
        | none => acc
        | some kv => dictSet acc (String.mk kv.1) (String.mk kv.2))
      []

/-- A token of a spaCy `Doc`, with the attributes the service reads:
`text`, `lemma_`, `pos_`, `tag_`, `dep_`, `head.text`, `has_vector`,
`vector_norm` and the morphology feature string `str(token.morph)`. -/
structure SpacyToken where
  text : String
  lemma_ : String
  pos_ : String
  tag_ : String
  dep_ : String
  headText : String
  has_vector : Bool
  vector_norm : ℚ
  morph : String

/-- A named entity of a spaCy `Doc`: `text`, `label_`, `start_char`,
`end_char`. -/
structure SpacyEntity where
  text : String
  label_ : String
  start_char : Nat
  end_char : Nat

/-- Outcome of a call to the loaded spaCy pipeline `nlp(...)`: either it
raises (any `Exception`, carried with its message text) or it returns a
document with its token sequence and named-entity sequence. -/
inductive SpacyResult where
  | raises (msg : String) : SpacyResult
  | doc (tokens : List SpacyToken) (ents : List SpacyEntity) : SpacyResult

/-- `lemmatize_word(word)` of `spacy-service.py`: on a non-empty document,
annotate from the first token with confidence 0.95 and method "spacy"; on an
empty document, an error record with message "Empty document"; engine
exceptions become error records with their message. Confidence 0.0 and
method "error" in both error shapes. -/
def lemmatize_word (nlp : String → SpacyResult) (word : String) :
    AnnotationRecord :=
  match nlp word with
  | SpacyResult.raises msg =>
      ⟨word, word, 0, "error", none, none, none, none, some msg⟩
  | SpacyResult.doc [] _ =>
      ⟨word, word, 0, "error", none, none, none, none, some "Empty document"⟩
  | SpacyResult.doc (token :: _) _ =>
      ⟨word, token.lemma_, 0.95, "spacy", some token.pos_, some token.tag_,
        some token.dep_, some (morphToDict token.morph), none⟩

/-- The per-token dict built by `analyze_sentence`: text, lemma, pos, tag,
dep, head text, has_vector, vector_norm (a number only when the token has a
vector, else `null`), and the morphology dict. -/
def tokenToJson (t : SpacyToken) : Json :=
  Json.obj [("text", Json.str t.text), ("lemma", Json.str t.lemma_),
    ("pos", Json.str t.pos_), ("tag", Json.str t.tag_),
    ("dep", Json.str t.dep_), ("head", Json.str t.headText),
    ("has_vector", Json.bool t.has_vector),
    ("vector_norm", if t.has_vector then Json.num t.vector_norm else Json.null),
    ("morph", Json.obj ((morphToDict t.morph).map
      (fun kv => (kv.1, Json.str kv.2))))]

/-- The per-entity dict built by `analyze_sentence`. -/
def entToJson (e : SpacyEntity) : Json :=
  Json.obj [("text", Json.str e.text), ("label", Json.str e.label_),
    ("start", Json.num e.start_char), ("end", Json.num e.end_char)]

/-- `analyze_sentence(text)` of `spacy-service.py`: full-document response
with token and entity lists on success, `{"success": false, ...}` with the
exception message when the engine raises. -/
def analyze_sentence (nlp : String → SpacyResult) (text : String) : Json :=
  match nlp text with
  | SpacyResult.raises msg =>
      Json.obj [("success", Json.bool false), ("text", Json.str text),
        ("error", Json.str msg), ("method", Json.str "error")]
  | SpacyResult.doc toks ents =>
      Json.obj [("success", Json.bool true), ("text", Json.str text),
        ("tokens", Json.arr (toks.map tokenToJson)),
        ("entities", Json.arr (ents.map entToJson)),
        ("method", Json.str "spacy")]

/-- `request.get("action", "lemmatize")` on a decoded JSON value: the raw
action value (any JSON type), defaulting to the string "lemmatize";
`AttributeError` when the request is not a dict. -/
def getAction (req : Json) : Except String Json :=
  match req with
  | Json.obj fields =>
      match fieldLookup fields "action" with
      | none => Except.ok (Json.str "lemmatize")
      | some v => Except.ok v
  | _ => Except.error (noAttrMsg req "get")

/-- Python `action == "<s>"` where `action` is a decoded JSON value: true
exactly when it is that string (a non-string never equals a `str`). -/
def actionIs (act : Json) (s : String) : Bool :=
  match act with
  | Json.str a => a = s
  | _ => false

/-- `request.get("text", "")` on a decoded dict: the raw text value (any
JSON type), defaulting to the string "". Only called once the request is
known to be a dict. -/
def getRawText (fields : List (String × Json)) : Json :=
  match fieldLookup fields "text" with
  | none => Json.str ""
  | some v => v

/-- Message of the `TypeError` CPython raises when `nlp` is applied to a
non-string value (spaCy rejects non-str input); caught inside
`analyze_sentence`, whose except-branch response carries it. -/
def nlpTypeErrMsg (v : Json) : String :=
  "Argument 'string' has incorrect type (expected str, got " ++ pyTypeName v
    ++ ")"

/-- Body of the `try` block of `main` in `spacy-service.py` for one
stripped, non-blank line: decode (failures yield `Invalid JSON: <msg>`),
dispatch on the action (default "lemmatize"), run the word or text handler,
and route any other exception to `Unexpected error: <msg>`. A truthy
non-string "text" value reaches `nlp` inside `analyze_sentence`, whose own
handler produces the `success: false` response. -/
def spacyRespond (parse : String → Except String Json)
    (nlp : String → SpacyResult) (l : String) : Json :=
  match parse l with
  | Except.error e => Json.obj [("error", Json.str ("Invalid JSON: " ++ e))]
  | Except.ok req =>
      match getAction req with
      | Except.error msg =>
          Json.obj [("error", Json.str ("Unexpected error: " ++ msg))]
      | Except.ok act =>
          if actionIs act "lemmatize" then
            match getLoweredWord req with
            | Except.error msg =>
                Json.obj [("error", Json.str ("Unexpected error: " ++ msg))]
            | Except.ok word =>
                if word = "" then
                  Json.obj [("error", Json.str "Missing word field")]
                else recordToJson (lemmatize_word nlp word)
          else if actionIs act "analyze" then
            match req with
            | Json.obj fields =>
                match getRawText fields with
                | Json.str s =>
                    if s = "" then
                      Json.obj [("error", Json.str "Missing text field")]
                    else analyze_sentence nlp s
                | v =>
                    if jsonTruthy v then
                      Json.obj [("success", Json.bool false), ("text", v),
                        ("error", Json.str (nlpTypeErrMsg v)),
                        ("method", Json.str "error")]
                    else Json.obj [("error", Json.str "Missing text field")]
            | _ => Json.obj [("error", Json.str "Missing text field")]
          else Json.obj [("error", Json.str ("Unknown action: " ++ pyStr act))]

/-- One iteration of the `main` loop of `spacy-service.py`: strip the line,
skip it when blank (no output), otherwise write exactly one response
line. -/
def spacyProcessLine (parse : String → Except String Json)
    (nlp : String → SpacyResult) (line : String) : Option Json :=
  if pyStrip line = "" then none
  else some (spacyRespond parse nlp (pyStrip line))

/-- The `main` loop of `spacy-service.py` over a finite input stream: the
list of response lines written to stdout, in order. -/
def spacyMain (parse : String → Except String Json)
    (nlp : String → SpacyResult) : List String → List Json
  | [] => []
  | line :: rest =>
      match spacyProcessLine parse nlp line with
      | none => spacyMain parse nlp rest
      | some out => out :: spacyMain parse nlp rest

/-! ## Auxiliary notions used by the stated properties -/

/-- Field access on a serialized response: the value bound to `k` when the
response is an object, else `none`. -/
def jsonField (j : Json) (k : String) : Option Json :=
  match j with
  | Json.obj fields => fieldLookup fields k
  | _ => none

/-- Is a response a bare protocol-error object of the one-field shape
`Json.obj [("error", Json.str msg)]`, like the protocol error responses? -/
def isBareError : Json → Bool
  | Json.obj [(k, Json.str _)] => k = "error"
  | _ => false

/-- Environment assumption on the simplemma engine: when it produces
candidates, the first one is a non-empty string (simplemma never lemmatizes
a non-empty word to the empty string). -/
def firstLemmaNonempty : SimplemmaResult → Bool
  | SimplemmaResult.candidates (c :: _) => c != ""
  | _ => true

/-- Environment assumption on the spaCy pipeline: the first token of a
non-empty document carries a non-empty lemma. -/
def firstTokenLemmaNonempty : SpacyResult → Bool
  | SpacyResult.doc (t :: _) _ => t.lemma_ != ""
  | _ => true

/-- The morphology parse in the spec's words: split the string on `|`, keep
exactly the segments containing `=`, split each kept segment on its first
`=` into a key/value pair, and assign the pairs into the mapping from left
to right. -/
def morphSpec (s : String) : List (String × String) :=
  ((splitAll '|' s.data).filterMap
      (fun seg => (splitFirst '=' seg).map
        (fun kv => (String.mk kv.1, String.mk kv.2)))).foldl
    (fun acc kv => dictSet acc kv.1 kv.2) []

/-! ## Claims -/

/-- C1: for every word request where the engine returns at least one lemma
candidate and that (first) candidate differs from the input word under
case-insensitive surface comparison, the emitted record has confidence
exactly 0.95 and method equal to the engine's model-derived identifier
("simplemma" for the simplemma service, "spacy" for the spaCy service). -/
theorem C1_reduced_word_confidence
    (engine : String → SimplemmaResult) (nlp : String → SpacyResult)
    (word c : String) (cs : List String) (t : SpacyToken)
    (ts : List SpacyToken) (es : List SpacyEntity) :
    (engine word = SimplemmaResult.candidates (c :: cs) →
      pyLower c ≠ pyLower word →
      (lemmatize engine word).confidence = 0.95 ∧
      (lemmatize engine word).method = "simplemma") ∧
    (nlp word = SpacyResult.doc (t :: ts) es →
      pyLower t.lemma_ ≠ pyLower word →
      (lemmatize_word nlp word).confidence = 0.95 ∧
      (lemmatize_word nlp word).method = "spacy") := by
  constructor
  · intro h hne
    have hcw : c ≠ word := fun h' => hne (by rw [h'])
    simp [lemmatize, h, hcw]
  · intro h _
    simp [lemmatize_word, h]

/-- Witness for C1: candidate "haus" for the word "häuser" (simplemma), and
first-token lemma "Haus" for the word "häuser" (spaCy). -/
theorem C1_reduced_word_confidence_witness :
    (lemmatize (fun _ => SimplemmaResult.candidates ["haus"])
        "häuser").confidence = 0.95 ∧
    (lemmatize_word (fun _ => SpacyResult.doc
        [⟨"häuser", "Haus", "NOUN", "NN", "ROOT", "häuser", false, 0, ""⟩] [])
        "häuser").confidence = 0.95 :=
  ⟨((C1_reduced_word_confidence (fun _ => SimplemmaResult.candidates ["haus"])
      (fun _ => SpacyResult.doc
        [⟨"häuser", "Haus", "NOUN", "NN", "ROOT", "häuser", false, 0, ""⟩] [])
      "häuser" "haus" []
      ⟨"häuser", "Haus", "NOUN", "NN", "ROOT", "häuser", false, 0, ""⟩ [] []).1
      rfl (by decide)).1,
   ((C1_reduced_word_confidence (fun _ => SimplemmaResult.candidates ["haus"])
      (fun _ => SpacyResult.doc
        [⟨"häuser", "Haus", "NOUN", "NN", "ROOT", "häuser", false, 0, ""⟩] [])
      "häuser" "haus" []
      ⟨"häuser", "Haus", "NOUN", "NN", "ROOT", "häuser", false, 0, ""⟩ [] []).2
      rfl (by decide)).1⟩

/-- C2 fails on the code: the simplemma service compares the candidate to
the word case-SENSITIVELY (`lemma != word`), so the candidate "Haus" for the
word "haus" — identical under case-insensitive comparison — is emitted with
confidence 0.95 ≠ 0.3 and lemma "Haus" ≠ "haus"; and the spaCy service
assigns 0.95 to every non-empty document, even when the lemma is literally
identical to the word ("der"). -/
theorem C2_counterexample :
    pyLower "Haus" = pyLower "haus" ∧
    (lemmatize (fun _ => SimplemmaResult.candidates ["Haus"])
        "haus").confidence = 0.95 ∧
    (0.95 : ℚ) ≠ 0.3 ∧
    (lemmatize (fun _ => SimplemmaResult.candidates ["Haus"])
        "haus").lemma_ ≠ "haus" ∧
    (lemmatize_word (fun _ => SpacyResult.doc
        [⟨"der", "der", "DET", "ART", "ROOT", "der", true, 7, "Case=Nom"⟩] [])
        "der").confidence = 0.95 :=
  ⟨by decide, rfl, by norm_num, by decide, rfl⟩

/-- C2 amended: in the simplemma service, when the engine's first candidate
is identical to the input word under case-sensitive comparison, the emitted
record has confidence exactly 0.3 and lemma equal to the input word; the
spaCy service instead emits confidence 0.95 for every request with a
non-empty document, identical lemma or not. -/
theorem C2_amended_unchanged_confidence
    (engine : String → SimplemmaResult) (nlp : String → SpacyResult)
    (word : String) (cs : List String) (t : SpacyToken)
    (ts : List SpacyToken) (es : List SpacyEntity) :
    (engine word = SimplemmaResult.candidates (word :: cs) →
      (lemmatize engine word).confidence = 0.3 ∧
      (lemmatize engine word).lemma_ = word) ∧
    (nlp word = SpacyResult.doc (t :: ts) es →
      (lemmatize_word nlp word).confidence = 0.95) := by
  constructor
  · intro h
    simp [lemmatize, h]
  · intro h
    simp [lemmatize_word, h]

/-- Witness for the amended C2: the simplemma engine returning the word
"der" itself, and a spaCy document whose first token has lemma "der" for
the word "der". -/
theorem C2_amended_unchanged_confidence_witness :
    ((lemmatize (fun _ => SimplemmaResult.candidates ["der"])
        "der").confidence = 0.3 ∧
     (lemmatize (fun _ => SimplemmaResult.candidates ["der"])
        "der").lemma_ = "der") ∧
    (lemmatize_word (fun _ => SpacyResult.doc
        [⟨"der", "der", "DET", "ART", "ROOT", "der", true, 7, "Case=Nom"⟩] [])
        "der").confidence = 0.95 :=
  ⟨(C2_amended_unchanged_confidence (fun _ => SimplemmaResult.candidates ["der"])
      (fun _ => SpacyResult.doc
        [⟨"der", "der", "DET", "ART", "ROOT", "der", true, 7, "Case=Nom"⟩] [])
      "der" [] ⟨"der", "der", "DET", "ART", "ROOT", "der", true, 7, "Case=Nom"⟩
      [] []).1 rfl,
   (C2_amended_unchanged_confidence (fun _ => SimplemmaResult.candidates ["der"])
      (fun _ => SpacyResult.doc
        [⟨"der", "der", "DET", "ART", "ROOT", "der", true, 7, "Case=Nom"⟩] [])
      "der" [] ⟨"der", "der", "DET", "ART", "ROOT", "der", true, 7, "Case=Nom"⟩
      [] []).2 rfl⟩

/-- C3: for every word request whose engine invocation raises a runtime
fault, the emitted record has lemma equal to the input word, confidence
exactly 0.0, method "error", and an error field containing the fault's
message text; the handler returns this record instead of propagating the
fault, in both services. -/
theorem C3_engine_fault_record
    (engine : String → SimplemmaResult) (nlp : String → SpacyResult)
    (word msgS msgN : String) :
    (engine word = SimplemmaResult.raises msgS →
      lemmatize engine word =
        ⟨word, word, 0, "error", none, none, none, none, some msgS⟩) ∧
    (nlp word = SpacyResult.raises msgN →
      lemmatize_word nlp word =
        ⟨word, word, 0, "error", none, none, none, none, some msgN⟩) := by
  constructor
  · intro h
    unfold lemmatize
    rw [h]
  · intro h
    unfold lemmatize_word
    rw [h]

/-- Witness for C3: both engines raising on the word "x". -/
theorem C3_engine_fault_record_witness :
    lemmatize (fun _ => SimplemmaResult.raises "boom") "x" =
      ⟨"x", "x", 0, "error", none, none, none, none, some "boom"⟩ ∧
    lemmatize_word (fun _ => SpacyResult.raises "kaputt") "x" =
      ⟨"x", "x", 0, "error", none, none, none, none, some "kaputt"⟩ :=
  ⟨(C3_engine_fault_record (fun _ => SimplemmaResult.raises "boom")
      (fun _ => SpacyResult.raises "kaputt") "x" "boom" "kaputt").1 rfl,
   (C3_engine_fault_record (fun _ => SimplemmaResult.raises "boom")
      (fun _ => SpacyResult.raises "kaputt") "x" "boom" "kaputt").2 rfl⟩

/-- C4: for every word request where the engine returns no lemma candidates
at all, the emitted record has lemma equal to the input word, confidence
exactly 0.3 and method "heuristic"; instantiated at the base-form word
"der" by the witness. -/
theorem C4_no_candidates_heuristic
    (engine : String → SimplemmaResult) (word : String)
    (h : engine word = SimplemmaResult.candidates []) :
    lemmatize engine word =
      ⟨word, word, 0.3, "heuristic", none, none, none, none, none⟩ := by
  unfold lemmatize
  rw [h]

/-- Witness for C4: the word "der" with an engine returning no candidates
yields the heuristic identity record. -/
theorem C4_no_candidates_heuristic_witness :
    lemmatize (fun _ => SimplemmaResult.candidates []) "der" =
      ⟨"der", "der", 0.3, "heuristic", none, none, none, none, none⟩ :=
  C4_no_candidates_heuristic (fun _ => SimplemmaResult.candidates []) "der" rfl

/-- Folding the source's match-and-assign step over segments agrees with
first filtering the segments containing `=` into key/value pairs and then
assigning those, whatever the starting dictionary. -/
theorem foldl_match_filterMap (l : List (List Char))
    (acc : List (String × String)) :
    l.foldl (fun acc feature =>
        match splitFirst '=' feature with
        | none => acc
        | some kv => dictSet acc (String.mk kv.1) (String.mk kv.2)) acc =
      (l.filterMap (fun seg => (splitFirst '=' seg).map
          (fun kv => (String.mk kv.1, String.mk kv.2)))).foldl
        (fun acc kv => dictSet acc kv.1 kv.2) acc := by
  induction l generalizing acc with
  | nil => rfl
  | cons x xs ih =>
      cases hx : splitFirst '=' x with
      | none => simp [List.filterMap_cons, hx, ih]
      | some kv => simp [List.filterMap_cons, hx, ih]

/-- C5: morphology-string parsing is total (a Lean function, so it never
raises) and for every input string it equals the spec-side parse — split on
"|", drop the segments with no "=", split the rest on the first "=" into
key/value pairs — with the empty string yielding the empty mapping and
`"Case=Nom|Number=Sing"` its two pairs. -/
theorem C5_morphology_parse_total (s : String) :
    morphToDict s = morphSpec s ∧
    morphToDict "" = [] ∧
    morphToDict "Case=Nom|Number=Sing" =
      [("Case", "Nom"), ("Number", "Sing")] := by
  refine ⟨?_, by decide, by decide⟩
  by_cases hs : s = ""
  · subst hs
    rfl
  · unfold morphToDict morphSpec
    rw [if_neg hs]
    exact foldl_match_filterMap _ _

/-- C6 fails as stated for the spaCy service: on a non-blank, non-JSON line
it emits `Invalid JSON: <decoder message>`, not exactly `Invalid JSON` (the
simplemma service does emit exactly `Invalid JSON`). -/
theorem C6_counterexample :
    spacyMain (fun _ => Except.error "Expecting value: line 1 column 1 (char 0)")
        (fun _ => SpacyResult.doc [] []) ["not valid json"] ≠
      [Json.obj [("error", Json.str "Invalid JSON")]] := by
  intro h
  have h2 : ([Json.obj [("error",
      Json.str "Invalid JSON: Expecting value: line 1 column 1 (char 0)")]] :
      List Json) = [Json.obj [("error", Json.str "Invalid JSON")]] := h
  simp at h2

/-- C6 amended: for every non-blank input line that the decoder rejects, the
simplemma service emits exactly `Json.obj [("error", Json.str "Invalid
JSON")]` while the spaCy service emits the decoder message prefixed with
"Invalid JSON: "; in both services processing continues with the next
line. -/
theorem C6_amended_invalid_json
    (parse : String → Except String Json) (engine : String → SimplemmaResult)
    (nlp : String → SpacyResult) (line e : String) (rest : List String)
    (hnb : pyStrip line ≠ "") (hp : parse (pyStrip line) = Except.error e) :
    lemmaMain parse engine (line :: rest) =
      Json.obj [("error", Json.str "Invalid JSON")] ::
        lemmaMain parse engine rest ∧
    spacyMain parse nlp (line :: rest) =
      Json.obj [("error", Json.str ("Invalid JSON: " ++ e))] ::
        spacyMain parse nlp rest := by
  constructor
  · simp [lemmaMain, lemmaProcessLine, hnb, lemmaRespond, hp]
  · simp [spacyMain, spacyProcessLine, hnb, spacyRespond, hp]

/-- Witness for the amended C6: the line "not valid json" with a rejecting
decoder, followed by an empty stream. -/
theorem C6_amended_invalid_json_witness :
    lemmaMain (fun _ => Except.error "Expecting value")
        (fun _ => SimplemmaResult.candidates []) ["not valid json"] =
      Json.obj [("error", Json.str "Invalid JSON")] ::
        lemmaMain (fun _ => Except.error "Expecting value")
          (fun _ => SimplemmaResult.candidates []) [] ∧
    spacyMain (fun _ => Except.error "Expecting value")
        (fun _ => SpacyResult.doc [] []) ["not valid json"] =
      Json.obj [("error", Json.str ("Invalid JSON: " ++ "Expecting value"))] ::
        spacyMain (fun _ => Except.error "Expecting value")
          (fun _ => SpacyResult.doc [] []) [] :=
  C6_amended_invalid_json (fun _ => Except.error "Expecting value")
    (fun _ => SimplemmaResult.candidates []) (fun _ => SpacyResult.doc [] [])
    "not valid json" "Expecting value" [] (by decide) rfl

/-- C7: over any finite input stream, each main loop emits exactly one
output line per non-blank input line and none for blank lines, in input
order: the output list is the per-line response map over the stripped
non-blank lines. -/
theorem C7_one_output_per_nonblank_line
    (parse : String → Except String Json) (engine : String → SimplemmaResult)
    (nlp : String → SpacyResult) (lines : List String) :
    lemmaMain parse engine lines =
      ((lines.map pyStrip).filter (fun l => l != "")).map
        (lemmaRespond parse engine) ∧
    spacyMain parse nlp lines =
      ((lines.map pyStrip).filter (fun l => l != "")).map
        (spacyRespond parse nlp) := by
  induction lines with
  | nil => exact ⟨rfl, rfl⟩
  | cons line rest ih =>
      by_cases hb : pyStrip line = ""
      · simpa [lemmaMain, spacyMain, lemmaProcessLine, spacyProcessLine,
          hb] using ih
      · simpa [lemmaMain, spacyMain, lemmaProcessLine, spacyProcessLine,
          hb] using ih

/-- The serialized record always carries a "lemma" and a "confidence"
field, and carries an "error" field exactly when the record does. -/
theorem recordToJson_fields (r : AnnotationRecord) :
    jsonField (recordToJson r) "lemma" = some (Json.str r.lemma_) ∧
    jsonField (recordToJson r) "confidence" = some (Json.num r.confidence) ∧
    (jsonField (recordToJson r) "error" ≠ none → r.error ≠ none) := by
  obtain ⟨w, l, c, m, po, ta, de, mo, err⟩ := r
  cases err with
  | some e => exact ⟨rfl, rfl, fun _ h => Option.noConfusion h⟩
  | none =>
      cases po <;> cases ta <;> cases de <;> cases mo <;>
        exact ⟨rfl, rfl, fun h => absurd rfl h⟩

/-- C8: under the environment assumptions that the requested word is
non-empty (the main loops reject empty words with "Missing word field"
before lemmatizing) and that the engines do not lemmatize to the empty
string, every record the lemmatization path produces — in either service —
has a non-empty lemma present in its serialization, a confidence present in
its serialization, and an error field only when the method is "error". -/
theorem C8_record_invariant
    (engine : String → SimplemmaResult) (nlp : String → SpacyResult)
    (word : String) (hw : word ≠ "")
    (he : firstLemmaNonempty (engine word) = true)
    (hn : firstTokenLemmaNonempty (nlp word) = true) :
    ((lemmatize engine word).lemma_ ≠ "" ∧
     jsonField (recordToJson (lemmatize engine word)) "lemma" =
       some (Json.str (lemmatize engine word).lemma_) ∧
     jsonField (recordToJson (lemmatize engine word)) "confidence" =
       some (Json.num (lemmatize engine word).confidence) ∧
     (jsonField (recordToJson (lemmatize engine word)) "error" ≠ none →
       (lemmatize engine word).method = "error")) ∧
    ((lemmatize_word nlp word).lemma_ ≠ "" ∧
     jsonField (recordToJson (lemmatize_word nlp word)) "lemma" =
       some (Json.str (lemmatize_word nlp word).lemma_) ∧
     jsonField (recordToJson (lemmatize_word nlp word)) "confidence" =
       some (Json.num (lemmatize_word nlp word).confidence) ∧
     (jsonField (recordToJson (lemmatize_word nlp word)) "error" ≠ none →
       (lemmatize_word nlp word).method = "error")) := by
  constructor
  · obtain ⟨h1, h2, h3⟩ := recordToJson_fields (lemmatize engine word)
    refine ⟨?_, h1, h2, ?_⟩
    · cases hcase : engine word with
      | raises msg => simp [lemmatize, hcase, hw]
      | candidates lst =>
          cases lst with
          | nil => simp [lemmatize, hcase, hw]
          | cons cand cs =>
              rw [hcase] at he
              simp only [firstLemmaNonempty, bne_iff_ne, ne_eq,
                decide_eq_true_eq] at he
              simp [lemmatize, hcase, he]
    · intro hf
      have herr := h3 hf
      cases hcase : engine word with
      | raises msg => simp [lemmatize, hcase]
      | candidates lst =>
          cases lst with
          | nil => rw [lemmatize, hcase] at herr; simp at herr
          | cons cand cs => rw [lemmatize, hcase] at herr; simp at herr
  · obtain ⟨h1, h2, h3⟩ := recordToJson_fields (lemmatize_word nlp word)
    refine ⟨?_, h1, h2, ?_⟩
    · cases hcase : nlp word with
      | raises msg => simp [lemmatize_word, hcase, hw]
      | doc toks es =>
          cases toks with
          | nil => simp [lemmatize_word, hcase, hw]
          | cons t ts =>
              rw [hcase] at hn
              simp only [firstTokenLemmaNonempty, bne_iff_ne, ne_eq,
                decide_eq_true_eq] at hn
              simp [lemmatize_word, hcase, hn]
    · intro hf
      have herr := h3 hf
      cases hcase : nlp word with
      | raises msg => simp [lemmatize_word, hcase]
      | doc toks es =>
          cases toks with
          | nil => simp [lemmatize_word, hcase]
          | cons t ts => rw [lemmatize_word, hcase] at herr; simp at herr

/-- Witness for C8 at the word "der", a simplemma engine answering "haus"
and a spaCy pipeline answering a one-token document. -/
theorem C8_record_invariant_witness :
    (((lemmatize (fun _ => SimplemmaResult.candidates ["haus"])
        "der").lemma_ ≠ "" ∧
      jsonField (recordToJson (lemmatize
          (fun _ => SimplemmaResult.candidates ["haus"]) "der")) "lemma" =
        some (Json.str (lemmatize
          (fun _ => SimplemmaResult.candidates ["haus"]) "der").lemma_) ∧
      jsonField (recordToJson (lemmatize
          (fun _ => SimplemmaResult.candidates ["haus"]) "der")) "confidence" =
        some (Json.num (lemmatize
          (fun _ => SimplemmaResult.candidates ["haus"]) "der").confidence) ∧
      (jsonField (recordToJson (lemmatize
          (fun _ => SimplemmaResult.candidates ["haus"]) "der")) "error" ≠
          none →
        (lemmatize (fun _ => SimplemmaResult.candidates ["haus"])
          "der").method = "error")) ∧
     ((lemmatize_word (fun _ => SpacyResult.doc
        [⟨"der", "der", "DET", "ART", "ROOT", "der", true, 7, "Case=Nom"⟩] [])
        "der").lemma_ ≠ "" ∧
      jsonField (recordToJson (lemmatize_word (fun _ => SpacyResult.doc
          [⟨"der", "der", "DET", "ART", "ROOT", "der", true, 7, "Case=Nom"⟩] [])
          "der")) "lemma" =
        some (Json.str (lemmatize_word (fun _ => SpacyResult.doc
          [⟨"der", "der", "DET", "ART", "ROOT", "der", true, 7, "Case=Nom"⟩] [])
          "der").lemma_) ∧
      jsonField (recordToJson (lemmatize_word (fun _ => SpacyResult.doc
          [⟨"der", "der", "DET", "ART", "ROOT", "der", true, 7, "Case=Nom"⟩] [])
          "der")) "confidence" =
        some (Json.num (lemmatize_word (fun _ => SpacyResult.doc
          [⟨"der", "der", "DET", "ART", "ROOT", "der", true, 7, "Case=Nom"⟩] [])
          "der").confidence) ∧
      (jsonField (recordToJson (lemmatize_word (fun _ => SpacyResult.doc
          [⟨"der", "der", "DET", "ART", "ROOT", "der", true, 7, "Case=Nom"⟩] [])
          "der")) "error" ≠ none →
        (lemmatize_word (fun _ => SpacyResult.doc
          [⟨"der", "der", "DET", "ART", "ROOT", "der", true, 7, "Case=Nom"⟩] [])
          "der").method = "error"))) :=
  C8_record_invariant (fun _ => SimplemmaResult.candidates ["haus"])
    (fun _ => SpacyResult.doc
      [⟨"der", "der", "DET", "ART", "ROOT", "der", true, 7, "Case=Nom"⟩] [])
    "der" (by decide) rfl rfl

/-- C9 fails on the code: for a lemmatize request on which the pipeline
produces an empty document, the spaCy service emits the full five-field
annotation record (word, lemma, confidence, error, method), not a bare
one-field error object like the protocol error responses. -/
theorem C9_counterexample :
    isBareError (spacyRespond
        (fun _ => Except.ok (Json.obj [("word", Json.str "x")]))
        (fun _ => SpacyResult.doc [] []) "req") = false ∧
    spacyRespond (fun _ => Except.ok (Json.obj [("word", Json.str "x")]))
        (fun _ => SpacyResult.doc [] []) "req" =
      Json.obj [("word", Json.str "x"), ("lemma", Json.str "x"),
        ("confidence", Json.num 0), ("error", Json.str "Empty document"),
        ("method", Json.str "error")] :=
  ⟨rfl, rfl⟩

/-- C9 amended: when the pipeline produces an empty document for a
lemmatize request, the emitted response is the full annotation record with
lemma equal to the word, confidence 0.0, method "error" and error message
"Empty document" — not a bare error object. -/
theorem C9_amended_empty_doc_record
    (nlp : String → SpacyResult) (word : String) (es : List SpacyEntity)
    (h : nlp word = SpacyResult.doc [] es) :
    lemmatize_word nlp word =
      ⟨word, word, 0, "error", none, none, none, none,
        some "Empty document"⟩ ∧
    isBareError (recordToJson (lemmatize_word nlp word)) = false := by
  have h1 : lemmatize_word nlp word =
      ⟨word, word, 0, "error", none, none, none, none,
        some "Empty document"⟩ := by
    simp [lemmatize_word, h]
  exact ⟨h1, by rw [h1]; rfl⟩

/-- Witness for the amended C9: an always-empty document at the word "x". -/
theorem C9_amended_empty_doc_record_witness :
    lemmatize_word (fun _ => SpacyResult.doc [] []) "x" =
      ⟨"x", "x", 0, "error", none, none, none, none,
        some "Empty document"⟩ ∧
    isBareError (recordToJson
        (lemmatize_word (fun _ => SpacyResult.doc [] []) "x")) = false :=
  C9_amended_empty_doc_record (fun _ => SpacyResult.doc [] []) "x" [] rfl

/-- C10: for every non-blank line decoding to an object whose "word" value
exists but is not a string, neither service crashes: the AttributeError from
`.lower()` is caught by the per-line handler, exactly one error-object line
is emitted (the bare message in the simplemma service, prefixed with
"Unexpected error: " in the spaCy service), and the loop continues with the
remaining lines. -/
theorem C10_nonstring_word_caught
    (parse : String → Except String Json) (engine : String → SimplemmaResult)
    (nlp : String → SpacyResult) (line : String) (rest : List String)
    (fields : List (String × Json)) (v : Json)
    (hnb : pyStrip line ≠ "")
    (hp : parse (pyStrip line) = Except.ok (Json.obj fields))
    (hw : fieldLookup fields "word" = some v)
    (hv : v.isStr = false)
    (ha : fieldLookup fields "action" = none) :
    lemmaMain parse engine (line :: rest) =
      Json.obj [("error", Json.str (noAttrMsg v "lower"))] ::
        lemmaMain parse engine rest ∧
    spacyMain parse nlp (line :: rest) =
      Json.obj [("error",
          Json.str ("Unexpected error: " ++ noAttrMsg v "lower"))] ::
        spacyMain parse nlp rest := by
  have hglw : getLoweredWord (Json.obj fields) =
      Except.error (noAttrMsg v "lower") := by
    cases v <;> simp_all [getLoweredWord, Json.isStr]
  have hga : getAction (Json.obj fields) =
      Except.ok (Json.str "lemmatize") := by
    simp [getAction, ha]
  constructor
  · simp [lemmaMain, lemmaProcessLine, hnb, lemmaRespond, hp, hglw]
  · simp [spacyMain, spacyProcessLine, hnb, spacyRespond, hp, hga, hglw,
      actionIs]

/-- Witness for C10: the request object binds "word" to the number 5; both
loops emit one error line and go on with an empty remainder. -/
theorem C10_nonstring_word_caught_witness :
    lemmaMain (fun _ => Except.ok (Json.obj [("word", Json.num 5)]))
        (fun _ => SimplemmaResult.candidates []) ["req"] =
      Json.obj [("error", Json.str (noAttrMsg (Json.num 5) "lower"))] ::
        lemmaMain (fun _ => Except.ok (Json.obj [("word", Json.num 5)]))
          (fun _ => SimplemmaResult.candidates []) [] ∧
    spacyMain (fun _ => Except.ok (Json.obj [("word", Json.num 5)]))
        (fun _ => SpacyResult.doc [] []) ["req"] =
      Json.obj [("error",
          Json.str ("Unexpected error: " ++ noAttrMsg (Json.num 5) "lower"))] ::
        spacyMain (fun _ => Except.ok (Json.obj [("word", Json.num 5)]))
          (fun _ => SpacyResult.doc [] []) [] :=
  C10_nonstring_word_caught
    (fun _ => Except.ok (Json.obj [("word", Json.num 5)]))
    (fun _ => SimplemmaResult.candidates []) (fun _ => SpacyResult.doc [] [])
    "req" [] [("word", Json.num 5)] (Json.num 5) (by decide) rfl rfl rfl rfl

end DeutschLernen
